import Mathlib

/-!
Verification of the cfgen configuration-derive crate against its
specification.  The development shallowly embeds:

* the descriptor resolver of `cfgen_derive/src/lib.rs`
  (`CfgOpt::default`, `parse_field`, `parse_all_attrs`, `Format`);
* the binding runtime that the derive macro generates
  (`path`-relative `load`, `write_default`, `load_or_write_default`),
  with the filesystem made explicit as a state value threaded through
  the operations;
* the older revision of the same runtime from
  `structcfg_derive/src/lib.rs`, for the refinement comparison.

Machine strings are Lean `String`s; the Rust idiom `str::split(pat).next()` is
embedded as the structural function `splitFirst` (the prefix of the
string before the first occurrence of the separator).  Filesystem
failures are injected through explicit fault sets in the `FS` state, so
that every error path of the runtime is reachable in the model.
-/

namespace Cfgen

/-- Prefix of a character list before the first occurrence of the
separator `sep`; the whole list when `sep` does not occur.  Mirrors the
first element yielded by the Rust `str::split` with a non-empty pattern. -/
def splitBefore (sep : List Char) : List Char → List Char
  | [] => []
  | c :: rest => if sep.isPrefixOf (c :: rest) then [] else c :: splitBefore sep rest

/-- `s.split(sep).next().unwrap()` of Rust: everything before the first
occurrence of `sep`, or all of `s` when `sep` does not occur in `s`. -/
def splitFirst (sep s : String) : String := ⟨splitBefore sep.data s.data⟩

/-- The serialization formats of `cfgen_derive` (`enum Format`). -/
inductive Format
  | Yaml
  | Toml
deriving DecidableEq, Repr

/-- `Format::default_filename` of `cfgen_derive`. -/
def Format.default_filename : Format → String
  | .Yaml => "config.yml"
  | .Toml => "config.toml"

/-- `Format::from_str` of `cfgen_derive`; the Rust function panics on an
unknown format name, embedded as `none`. -/
def Format.fromStr (s : String) : Option Format :=
  if s = "yaml" then some .Yaml
  else if s = "toml" then some .Toml
  else none

/-- `default_format` of `cfgen_derive`: chosen by the `cfg_if` chain over
the crate features `with-toml` and `yaml`; the feature flags are made
explicit arguments.  With no format feature enabled the Rust function
panics, embedded as `none`. -/
def default_format (withToml withYaml : Bool) : Option Format :=
  if withToml then some Format.Toml
  else if withYaml then some Format.Yaml
  else none

/-- `struct CfgOpt` of `cfgen_derive`: the resolved configuration
descriptor.  The `default` override names a Rust `const` identifier,
embedded as a plain string. -/
structure CfgOpt where
  org : String
  qualifier : String
  application : String
  default_config_ident : Option String
  filename : String
  format : Format
deriving DecidableEq, Repr

/-- `CfgOpt::default` of `cfgen_derive`.  The cargo environment variables
`CARGO_PKG_AUTHORS` and `CARGO_PKG_NAME` and the crate feature flags are
explicit arguments.  The Rust function panics (embedded as `none`) when
the computed organization is empty, and panics inside `default_format`
when no format feature is enabled; both checks run before any override
is seen. -/
def CfgOpt.default (pkg_authors pkg_name : String) (withToml withYaml : Bool) :
    Option CfgOpt :=
  let first_author_field := splitFirst ":" pkg_authors
  let org := splitFirst " <" first_author_field
  if org.isEmpty then none
  else
    match default_format withToml withYaml with
    | none => none
    | some format =>
        some { org := org
               qualifier := "org"
               application := pkg_name
               default_config_ident := none
               filename := format.default_filename
               format := format }

/-- One `key = "value"` pair from the `#[cfgen(...)]` attribute. -/
structure KV where
  key : String
  value : String
deriving DecidableEq, Repr

/-- `parse_field` of `cfgen_derive`: applies one override to the
descriptor being built.  The Rust function panics on an unknown key and
(inside `Format::from_str`) on an unknown format name, both embedded as
`none`. -/
def parse_field (kv : KV) (opt : CfgOpt) : Option CfgOpt :=
  if kv.key = "app_name" then some { opt with application := kv.value }
  else if kv.key = "org" then some { opt with org := kv.value }
  else if kv.key = "qualifier" then some { opt with qualifier := kv.value }
  else if kv.key = "default" then some { opt with default_config_ident := some kv.value }
  else if kv.key = "filename" then some { opt with filename := kv.value }
  else if kv.key = "format" then
    match Format.fromStr kv.value with
    | some f => some { opt with format := f }
    | none => none
  else none

/-- `parse_all_attrs` of `cfgen_derive`: starts from `CfgOpt::default()`
and folds the overrides of the `#[cfgen(...)]` attribute over it in
order.  Attribute tokenization is outside the model; the overrides
arrive as the list of key/value pairs the Rust loop iterates over. -/
def parse_all_attrs (pkg_authors pkg_name : String) (withToml withYaml : Bool)
    (kvs : List KV) : Option CfgOpt :=
  match CfgOpt.default pkg_authors pkg_name withToml withYaml with
  | none => none
  | some base => kvs.foldlM (fun opt kv => parse_field kv opt) base

/-- The value of the last override with key `k` in the list, if any. -/
def lastValue (k : String) : List KV → Option String
  | [] => none
  | kv :: rest =>
      match lastValue k rest with
      | some v => some v
      | none => if kv.key = k then some kv.value else none

/-- A filesystem path, as its list of components. -/
abbrev Path := List String

/-- The kind of a low-level I/O failure (`std::io::ErrorKind`); only
`NotFound` is ever inspected by the generated code. -/
inductive IoErrorKind
  | NotFound
  | PermissionDenied
  | Other
deriving DecidableEq, Repr

/-- A low-level I/O failure (`std::io::Error`), reduced to its kind,
which is all the generated code ever looks at. -/
structure IoError where
  kind : IoErrorKind
deriving DecidableEq, Repr

/-- Association lookup of file content by path. -/
def lookupFile : List (Path × String) → Path → Option String
  | [], _ => none
  | (q, s) :: rest, p => if q = p then some s else lookupFile rest p

/-- Insert or overwrite the file at `p` with content `s`. -/
def setFile : List (Path × String) → Path → String → List (Path × String)
  | [], p, s => [(p, s)]
  | (q, c) :: rest, p, s =>
      if q = p then (p, s) :: rest else (q, c) :: setFile rest p s

/-- All initial segments of a path: the directory and every intermediate
directory above it. -/
def pathPrefixes : Path → List Path
  | [] => [[]]
  | c :: rest => [] :: (pathPrefixes rest).map (c :: ·)

/-- The explicit filesystem state.  `files` and `dirs` are the visible
contents; the three fault sets inject failures: a read of a path in
`unreadable` fails with `PermissionDenied`, creating a directory listed
in `unwritableDirs` fails, and writing a file listed in
`unwritableFiles` fails.  They make every error branch of the generated
runtime reachable in the model. -/
structure FS where
  dirs : List Path
  files : List (Path × String)
  unreadable : List Path
  unwritableDirs : List Path
  unwritableFiles : List Path
deriving DecidableEq, Repr

/-- `std::fs::read_to_string`: fails with `NotFound` when the file is
absent, with an injected non-`NotFound` error when the path is in the
fault set; otherwise returns the content of the file.  Never modifies the
filesystem. -/
def read_to_string (fs : FS) (p : Path) : Except IoError String :=
  if p ∈ fs.unreadable then .error ⟨.PermissionDenied⟩
  else
    match lookupFile fs.files p with
    | some s => .ok s
    | none => .error ⟨.NotFound⟩

/-- `std::fs::create_dir_all`: creates the directory and all missing
intermediate directories; fails (leaving the state unchanged) when the
path is in the `unwritableDirs` fault set. -/
def create_dir_all (fs : FS) (p : Path) : Except IoError FS :=
  if p ∈ fs.unwritableDirs then .error ⟨.PermissionDenied⟩
  else .ok { fs with dirs := pathPrefixes p ++ fs.dirs }

/-- `std::fs::write`: creates or overwrites the file at `p` with content
`s`; fails (leaving the state unchanged) when the path is in the
`unwritableFiles` fault set. -/
def write (fs : FS) (p : Path) (s : String) : Except IoError FS :=
  if p ∈ fs.unwritableFiles then .error ⟨.PermissionDenied⟩
  else .ok { fs with files := setFile fs.files p s }

/-- `enum Error` of `cfgen/src/lib.rs`.  Deserialization errors are
reduced to their message string. -/
inductive Error
  | IoRead (e : IoError) (p : Path)
  | MakeDir (e : IoError) (p : Path)
  | IoWrite (e : IoError) (p : Path)
  | Toml (e : String) (p : Path)
  | Yaml (e : String) (p : Path)
deriving DecidableEq, Repr

/-- `Format::error` of `cfgen_derive`: the error constructor the
generated code wraps a failed deserialization in. -/
def Format.error : Format → String → Path → Error
  | .Yaml => .Yaml
  | .Toml => .Toml

/-- `enum ConfigLoad` of `cfgen/src/lib.rs`: the outcome tag of
`load_or_write_default` as declared by the `CfgenDefault` trait. -/
inductive ConfigLoad
  | DefaultWritten
  | Loaded
deriving DecidableEq, Repr

/-- The correspondence between the boolean flag the generated
`load_or_write_default` actually returns and the `ConfigLoad` tag
declared by the trait: `true` marks that the default was written. -/
def tagOf (b : Bool) : ConfigLoad := if b then .DefaultWritten else .Loaded

/-- The resolved binding of one bound type: the cached config path, the
format, the deserializer of the codec for the payload type `T` (an external
collaborator, kept abstract), and the literal default-payload string. -/
structure Binding (T : Type) where
  path : Path
  format : Format
  deser : String → Except String T
  payload : String

/-- `load` as generated by `gen_impl_cfgen`: read the file at `path()`
to a string (wrapping a failure in `Error::IoRead` with the path), then
deserialize it (wrapping a failure in the error constructor of the format
with the path).  Pure in the filesystem: no state is returned. -/
def load {T : Type} (b : Binding T) (fs : FS) : Except Error T :=
  match read_to_string fs b.path with
  | .error e => .error (.IoRead e b.path)
  | .ok cont =>
      match b.deser cont with
      | .error e => .error (b.format.error e b.path)
      | .ok v => .ok v

/-- `write_default` as generated by `gen_impl_cfgen_default`: create the
parent directory of `path()` and all missing intermediates (failure
wrapped in `Error::MakeDir` with the parent path), write the literal
default payload to `path()` (failure wrapped in `Error::IoWrite` with
the path), then immediately `load()` and return its result.  The
resulting filesystem state is returned alongside. -/
def write_default {T : Type} (b : Binding T) (fs : FS) : Except Error T × FS :=
  let parent := b.path.dropLast
  match create_dir_all fs parent with
  | .error e => (.error (.MakeDir e parent), fs)
  | .ok fs1 =>
      match write fs1 b.path b.payload with
      | .error e => (.error (.IoWrite e b.path), fs1)
      | .ok fs2 => (load b fs2, fs2)

/-- `load_or_write_default` as generated by `gen_impl_cfgen_default`:
attempt `load()`; on success return `Ok((value, false))`; on
`Error::IoRead` whose kind is `NotFound` run `write_default()` and on
its success return `Ok((value, true))`; propagate every other failure
unchanged.  Note the generated pair is `(Self, bool)`, value first. -/
def load_or_write_default {T : Type} (b : Binding T) (fs : FS) :
    Except Error (T × Bool) × FS :=
  match load b fs with
  | .ok ret => (.ok (ret, false), fs)
  | .error (.IoRead e path) =>
      match e.kind with
      | .NotFound =>
          match write_default b fs with
          | (.ok ret, fs') => (.ok (ret, true), fs')
          | (.error e2, fs') => (.error e2, fs')
      | _ => (.error (.IoRead e path), fs)
  | .error e => (.error e, fs)

end Cfgen

namespace StructCfg

/-- `load` as generated by the older `gen_impl_structfg`
(`structcfg_derive`): identical control flow to the newer revision, with
the deserialization error always wrapped in the `Toml` constructor
(the older crate supports only that format). -/
def load {T : Type} (b : Cfgen.Binding T) (fs : Cfgen.FS) : Except Cfgen.Error T :=
  match Cfgen.read_to_string fs b.path with
  | .error e => .error (.IoRead e b.path)
  | .ok cont =>
      match b.deser cont with
      | .error e => .error (.Toml e b.path)
      | .ok v => .ok v

/-- `write_default` as generated by the older
`gen_impl_structfg_default`: same directory creation, write and reload
sequence as the newer revision, calling the older `load`. -/
def write_default {T : Type} (b : Cfgen.Binding T) (fs : Cfgen.FS) :
    Except Cfgen.Error T × Cfgen.FS :=
  let parent := b.path.dropLast
  match Cfgen.create_dir_all fs parent with
  | .error e => (.error (.MakeDir e parent), fs)
  | .ok fs1 =>
      match Cfgen.write fs1 b.path b.payload with
      | .error e => (.error (.IoWrite e b.path), fs1)
      | .ok fs2 => (load b fs2, fs2)

/-- `load_or_write_default` as generated by the older
`gen_impl_structfg_default`: attempt `load()`; on success return the
plain value `Ok(ret)`; on `Error::IoRead` of kind `NotFound` return
`write_default()` directly; propagate every other failure unchanged.
The older revision carries no outcome tag. -/
def load_or_write_default {T : Type} (b : Cfgen.Binding T) (fs : Cfgen.FS) :
    Except Cfgen.Error T × Cfgen.FS :=
  match load b fs with
  | .ok ret => (.ok ret, fs)
  | .error (.IoRead e path) =>
      match e.kind with
      | .NotFound => write_default b fs
      | _ => (.error (.IoRead e path), fs)
  | .error e => (.error e, fs)

end StructCfg

namespace Cfgen

/-- A concrete payload codec for ground instances: accepts exactly the
string `"42"`. -/
def natDeser : String → Except String Nat := fun s =>
  if s = "42" then .ok 42 else .error "invalid"

/-- A concrete resolved config path. -/
def samplePath : Path := ["home", "user", ".config", "app", "config.toml"]

/-- A concrete binding over `Nat` whose default payload is `"42"`. -/
def sampleBinding : Binding Nat :=
  { path := samplePath, format := .Toml, deser := natDeser, payload := "42" }

/-- A filesystem already holding a well-formed config file. -/
def fsWithFile : FS :=
  { dirs := [], files := [(samplePath, "42")], unreadable := [],
    unwritableDirs := [], unwritableFiles := [] }

/-- A filesystem with no config file and no injected faults. -/
def fsEmpty : FS :=
  { dirs := [], files := [], unreadable := [],
    unwritableDirs := [], unwritableFiles := [] }

/-- A filesystem holding a config file with unparsable content. -/
def fsMalformed : FS :=
  { dirs := [], files := [(samplePath, "oops")], unreadable := [],
    unwritableDirs := [], unwritableFiles := [] }

/-- The filesystem after bootstrapping `sampleBinding` on `fsEmpty`. -/
def fsBootstrapped : FS :=
  { fsEmpty with dirs := pathPrefixes samplePath.dropLast ++ fsEmpty.dirs,
                 files := setFile fsEmpty.files samplePath sampleBinding.payload }

/-- The organization the resolver computes from `CARGO_PKG_AUTHORS`:
the first `:`-separated author field with everything from the first
occurrence of a space-then-`<` discarded. -/
def first_author_org (pkg_authors : String) : String :=
  splitFirst " <" (splitFirst ":" pkg_authors)

/-- The descriptor resolved from authors `"A <b>"`, crate name `"app"`,
feature `with-toml`, and no overrides. -/
def exampleOpt : CfgOpt :=
  { org := "A", qualifier := "org", application := "app",
    default_config_ident := none, filename := "config.toml",
    format := Format.Toml }

/-- A concrete override list exercising several keys, including a
repeated `org` override (the later one wins). -/
def exampleKvs : List KV :=
  [{ key := "org", value := "Acme" }, { key := "filename", value := "f.yml" },
   { key := "format", value := "yaml" }, { key := "org", value := "Zen" }]

/-- The descriptor `exampleKvs` resolves to on top of `exampleOpt`. -/
def exampleFinal : CfgOpt :=
  { org := "Zen", qualifier := "org", application := "app",
    default_config_ident := none, filename := "f.yml", format := Format.Yaml }

theorem lookupFile_setFile (l : List (Path × String)) (p : Path) (s : String) :
    lookupFile (setFile l p s) p = some s := by
  induction l with
  | nil => simp [setFile, lookupFile]
  | cons hd tl ih =>
      obtain ⟨q, c⟩ := hd
      by_cases h : q = p
      · simp [setFile, lookupFile, h]
      · simp [setFile, lookupFile, h, ih]

/-- Claim C1: `load_or_write_default` first attempts `load`; on success it
returns the loaded value with the `false` flag (the generated encoding
of `Loaded`); on an `IoRead` failure of kind `NotFound` it runs
`write_default` and on its success returns the value with the `true`
flag (the encoding of `DefaultWritten`); an `IoRead` failure of any
other kind, and any non-`IoRead` failure, is returned unchanged with
the filesystem untouched, so `write_default` is not invoked there. -/
theorem c1_load_or_write_default_protocol {T : Type} (b : Binding T) (fs : FS) :
    (∀ v, load b fs = .ok v →
      load_or_write_default b fs = (.ok (v, false), fs) ∧ tagOf false = .Loaded) ∧
    (∀ e p, load b fs = .error (.IoRead e p) → e.kind = .NotFound →
      ∀ v fs', write_default b fs = (.ok v, fs') →
        load_or_write_default b fs = (.ok (v, true), fs') ∧
        tagOf true = .DefaultWritten) ∧
    (∀ e p, load b fs = .error (.IoRead e p) → e.kind ≠ .NotFound →
      load_or_write_default b fs = (.error (.IoRead e p), fs)) ∧
    (∀ e, load b fs = .error e → (∀ e0 p, e ≠ .IoRead e0 p) →
      load_or_write_default b fs = (.error e, fs)) := by
  refine ⟨?_, ?_, ?_, ?_⟩
  · intro v h
    exact ⟨by simp [load_or_write_default, h], rfl⟩
  · intro e p h hk v fs' hw
    exact ⟨by simp [load_or_write_default, h, hk, hw], rfl⟩
  · intro e p h hk
    obtain ⟨k⟩ := e
    cases k with
    | NotFound => exact absurd rfl hk
    | PermissionDenied => simp [load_or_write_default, h]
    | Other => simp [load_or_write_default, h]
  · intro e h hne
    cases e with
    | IoRead e0 p => exact absurd rfl (hne e0 p)
    | MakeDir e0 p => simp [load_or_write_default, h]
    | IoWrite e0 p => simp [load_or_write_default, h]
    | Toml e0 p => simp [load_or_write_default, h]
    | Yaml e0 p => simp [load_or_write_default, h]

/-- Witness for C1: on a filesystem already holding a parsable file, the
loaded value comes back flagged `false`, i.e. `Loaded`. -/
theorem c1_load_or_write_default_protocol_witness :
    load_or_write_default sampleBinding fsWithFile = (.ok (42, false), fsWithFile) ∧
    tagOf false = ConfigLoad.Loaded :=
  (c1_load_or_write_default_protocol sampleBinding fsWithFile).1 42 rfl

/-- Claim C2: evaluating the generated `load_or_write_default` at ground
inputs.  The successful result is the pair `(value, flag)` — the
deserialized value first and a plain `Bool` second (`false` after a
plain load, `true` after a bootstrap) — which is the
`Result<(Self, bool), Error>` shape emitted by `gen_impl_cfgen_default`,
not the `Result<(ConfigLoad, Self), Error>` shape (tag first) that the
`CfgenDefault` trait of `cfgen/src/lib.rs` declares. -/
theorem c2_generated_return_shape :
    load_or_write_default sampleBinding fsWithFile = (.ok (42, false), fsWithFile) ∧
    load_or_write_default sampleBinding fsEmpty = (.ok (42, true), fsBootstrapped) :=
  ⟨rfl, rfl⟩

/-- Claim C3: `write_default` creates the parent directory of `path()` with
all missing intermediates, writes the literal default payload to
`path()` verbatim, then immediately returns the result of `load()` on
the resulting filesystem; it fails with `MakeDir` exactly when the
directory creation fails (filesystem untouched), with `IoWrite` exactly
when the file write fails (directories already created), and a failure
of the final `load()` is propagated unchanged. -/
theorem c3_write_default_contract {T : Type} (b : Binding T) (fs : FS) :
    (b.path.dropLast ∈ fs.unwritableDirs →
      write_default b fs =
        (.error (.MakeDir ⟨.PermissionDenied⟩ b.path.dropLast), fs)) ∧
    (b.path.dropLast ∉ fs.unwritableDirs → b.path ∈ fs.unwritableFiles →
      write_default b fs =
        (.error (.IoWrite ⟨.PermissionDenied⟩ b.path),
         { fs with dirs := pathPrefixes b.path.dropLast ++ fs.dirs })) ∧
    (b.path.dropLast ∉ fs.unwritableDirs → b.path ∉ fs.unwritableFiles →
      ∀ fs2, fs2 = { fs with dirs := pathPrefixes b.path.dropLast ++ fs.dirs,
                             files := setFile fs.files b.path b.payload } →
        write_default b fs = (load b fs2, fs2) ∧
        lookupFile fs2.files b.path = some b.payload ∧
        ∀ q ∈ pathPrefixes b.path.dropLast, q ∈ fs2.dirs) := by
  refine ⟨?_, ?_, ?_⟩
  · intro h
    simp [write_default, create_dir_all, h]
  · intro h1 h2
    simp [write_default, create_dir_all, write, h1, h2]
  · intro h1 h2 fs2 hfs2
    subst hfs2
    refine ⟨?_, lookupFile_setFile _ _ _, ?_⟩
    · simp [write_default, create_dir_all, write, h1, h2]
    · intro q hq
      exact List.mem_append_left _ hq

/-- Witness for C3: bootstrapping on an empty filesystem creates the parent
directories, writes the payload, and reloads it. -/
theorem c3_write_default_contract_witness :
    write_default sampleBinding fsEmpty = (load sampleBinding fsBootstrapped, fsBootstrapped) ∧
    lookupFile fsBootstrapped.files sampleBinding.path = some sampleBinding.payload ∧
    ∀ q ∈ pathPrefixes sampleBinding.path.dropLast, q ∈ fsBootstrapped.dirs :=
  (c3_write_default_contract sampleBinding fsEmpty).2.2 (by decide) (by decide)
    fsBootstrapped rfl

/-- Claim C4: `load` reads the file at `path()` and deserializes it with the
codec of the format; an unreadable or absent file yields `IoRead` wrapping
the underlying cause and the path, a deserialization failure yields the
format-specific parse error wrapping the cause and the path (never an
`IoRead`), and on an existing file with unparsable content
`load_or_write_default` fails with the same parse error leaving the
filesystem untouched (no write attempted).  `load` takes the filesystem
only as input, so it has no side effect beyond the read. -/
theorem c4_load_contract {T : Type} (b : Binding T) (fs : FS) :
    (b.path ∈ fs.unreadable →
      load b fs = .error (.IoRead ⟨.PermissionDenied⟩ b.path)) ∧
    (b.path ∉ fs.unreadable → lookupFile fs.files b.path = none →
      load b fs = .error (.IoRead ⟨.NotFound⟩ b.path)) ∧
    (∀ s v, b.path ∉ fs.unreadable → lookupFile fs.files b.path = some s →
      b.deser s = .ok v → load b fs = .ok v) ∧
    (∀ s e, b.path ∉ fs.unreadable → lookupFile fs.files b.path = some s →
      b.deser s = .error e →
      load b fs = .error (b.format.error e b.path) ∧
      load_or_write_default b fs = (.error (b.format.error e b.path), fs)) ∧
    (∀ e p e0 p0, b.format.error e p ≠ .IoRead e0 p0) := by
  refine ⟨?_, ?_, ?_, ?_, ?_⟩
  · intro h
    simp [load, read_to_string, h]
  · intro h1 h2
    simp [load, read_to_string, h1, h2]
  · intro s v h1 h2 h3
    simp [load, read_to_string, h1, h2, h3]
  · intro s e h1 h2 h3
    have hl : load b fs = .error (b.format.error e b.path) := by
      simp [load, read_to_string, h1, h2, h3]
    refine ⟨hl, ?_⟩
    cases hf : b.format <;> rw [hf] at hl <;> simp [Format.error] at hl <;>
      simp [load_or_write_default, hl, Format.error]
  · intro e p e0 p0
    cases b.format <;> simp [Format.error]

/-- Witness for C4: an existing file with unparsable content makes both
`load` and `load_or_write_default` fail with the toml parse error on the
resolved path, with the filesystem unchanged. -/
theorem c4_load_contract_witness :
    load sampleBinding fsMalformed = .error (.Toml "invalid" samplePath) ∧
    load_or_write_default sampleBinding fsMalformed =
      (.error (.Toml "invalid" samplePath), fsMalformed) :=
  (c4_load_contract sampleBinding fsMalformed).2.2.2.1 "oops" "invalid"
    (by decide) rfl rfl

/-- Claim C5: evaluating the resolver at a failing input.  With
`CARGO_PKG_AUTHORS` empty and an explicit `org = "Big Company"`
override, `parse_all_attrs` still aborts (`CfgOpt::default` panics on
the empty baseline organization before any override is parsed), so an
override supplying a non-empty organization does not prevent the
fatal failure the claim says it prevents. -/
theorem c5_org_override_does_not_rescue :
    parse_all_attrs "" "app" true false [{ key := "org", value := "Big Company" }] = none ∧
    parse_field { key := "org", value := "Big Company" } exampleOpt =
      some { exampleOpt with org := "Big Company" } :=
  ⟨rfl, rfl⟩

/-- Counterexample for C6: for the author string `"A<b@c>"` (no space before
the `<`), the rule of the claim — split on the first occurrence of the `"<"`
delimiter and discard from there — yields `"A"`, but the resolver keeps
the whole string: the code splits on `" <"` (a space followed by `<`),
not on `"<"`. -/
theorem c6_counterexample :
    (CfgOpt.default "A<b@c>" "app" true false).map CfgOpt.org = some "A<b@c>" ∧
    splitFirst "<" "A<b@c>" = "A" ∧
    ("A<b@c>" : String) ≠ "A" :=
  ⟨rfl, rfl, by decide⟩

/-- Claim C6 (amended): the baseline organization equals the first listed author
with the trailing contact-address suffix stripped by splitting on the
first occurrence of `" <"` (a space followed by `<`) and discarding
everything from that point; in particular the author string
`"Big Company <big@co.example>"` resolves to `"Big Company"`. -/
theorem c6_org_stripping :
    (∀ A N wt wy opt, CfgOpt.default A N wt wy = some opt →
      opt.org = first_author_org A) ∧
    (CfgOpt.default "Big Company <big@co.example>" "app" true false).map CfgOpt.org
      = some "Big Company" := by
  constructor
  · intro A N wt wy opt h
    simp only [CfgOpt.default] at h
    split at h
    · exact absurd h (by simp)
    · split at h
      · exact absurd h (by simp)
      · injection h with h2
        subst h2
        rfl
  · rfl

/-- Witness for C6: the amended rule applied at the example from the spec. -/
theorem c6_org_stripping_witness :
    ({ org := "Big Company", qualifier := "org", application := "app",
       default_config_ident := none, filename := "config.toml",
       format := Format.Toml } : CfgOpt).org
      = first_author_org "Big Company <big@co.example>" :=
  c6_org_stripping.1 "Big Company <big@co.example>" "app" true false _ rfl

end Cfgen

namespace Cfgen

theorem parse_field_some_fields (kv : KV) (opt opt' : CfgOpt)
    (h : parse_field kv opt = some opt') :
    opt'.application = (if kv.key = "app_name" then kv.value else opt.application) ∧
    opt'.org = (if kv.key = "org" then kv.value else opt.org) ∧
    opt'.qualifier = (if kv.key = "qualifier" then kv.value else opt.qualifier) ∧
    opt'.default_config_ident =
      (if kv.key = "default" then some kv.value else opt.default_config_ident) ∧
    opt'.filename = (if kv.key = "filename" then kv.value else opt.filename) ∧
    (if kv.key = "format"
     then Format.fromStr kv.value = some opt'.format
     else opt'.format = opt.format) := by
  unfold parse_field at h
  split_ifs at h with h1 h2 h3 h4 h5 h6
  · injection h with h0
    subst h0
    simp_all
  · injection h with h0
    subst h0
    simp_all
  · injection h with h0
    subst h0
    simp_all
  · injection h with h0
    subst h0
    simp_all
  · injection h with h0
    subst h0
    simp_all
  · split at h
    · injection h with h0
      subst h0
      simp_all
    · exact absurd h (by simp)

theorem foldl_overrides (kvs : List KV) :
    ∀ (opt final : CfgOpt),
      kvs.foldlM (fun o kv => parse_field kv o) opt = some final →
      final.application = (lastValue "app_name" kvs).getD opt.application ∧
      final.org = (lastValue "org" kvs).getD opt.org ∧
      final.qualifier = (lastValue "qualifier" kvs).getD opt.qualifier ∧
      final.default_config_ident =
        (match lastValue "default" kvs with
         | some v => some v
         | none => opt.default_config_ident) ∧
      final.filename = (lastValue "filename" kvs).getD opt.filename ∧
      (match lastValue "format" kvs with
       | none => final.format = opt.format
       | some v => Format.fromStr v = some final.format) := by
  induction kvs with
  | nil =>
      intro opt final h
      simp only [List.foldlM_nil, pure, Option.some.injEq] at h
      subst h
      simp [lastValue]
  | cons kv rest ih =>
      intro opt final h
      rw [List.foldlM_cons] at h
      obtain ⟨opt', hp, hrest⟩ := Option.bind_eq_some.mp h
      obtain ⟨ha, ho, hq, hd, hfn, hfmt⟩ := parse_field_some_fields kv opt opt' hp
      obtain ⟨ia, io, iq, idc, ifn, ifmt⟩ := ih opt' final hrest
      refine ⟨?_, ?_, ?_, ?_, ?_, ?_⟩
      · cases hl : lastValue "app_name" rest with
        | some v => simp [lastValue, hl] at ia ⊢; exact ia
        | none =>
            simp only [lastValue, hl] at ia ⊢
            by_cases hk : kv.key = "app_name" <;> simp [hk, ia, ha]
      · cases hl : lastValue "org" rest with
        | some v => simp [lastValue, hl] at io ⊢; exact io
        | none =>
            simp only [lastValue, hl] at io ⊢
            by_cases hk : kv.key = "org" <;> simp [hk, io, ho]
      · cases hl : lastValue "qualifier" rest with
        | some v => simp [lastValue, hl] at iq ⊢; exact iq
        | none =>
            simp only [lastValue, hl] at iq ⊢
            by_cases hk : kv.key = "qualifier" <;> simp [hk, iq, hq]
      · cases hl : lastValue "default" rest with
        | some v => simp [lastValue, hl] at idc ⊢; exact idc
        | none =>
            simp only [lastValue, hl] at idc ⊢
            by_cases hk : kv.key = "default" <;> simp [hk, idc, hd]
      · cases hl : lastValue "filename" rest with
        | some v => simp [lastValue, hl] at ifn ⊢; exact ifn
        | none =>
            simp only [lastValue, hl] at ifn ⊢
            by_cases hk : kv.key = "filename" <;> simp [hk, ifn, hfn]
      · cases hl : lastValue "format" rest with
        | some v => simp [lastValue, hl] at ifmt ⊢; exact ifmt
        | none =>
            simp only [lastValue, hl] at ifmt ⊢
            by_cases hk : kv.key = "format" <;> simp [hk] at hfmt <;>
              simp [lastValue, hl, hk, ifmt, hfmt]

/-- Claim C7: whenever resolution succeeds, every overridden field of the
resolved descriptor equals the (last) override value verbatim — never
combined with the baseline — independently of which other overrides are
present, and every field without an override equals the baseline value
from `CfgOpt::default`.  For `format` the override value is the parsed
format name; for `default` it is the payload identifier wrapped in
`some`. -/
theorem c7_override_precedence
    (A N : String) (wt wy : Bool) (kvs : List KV) (base final : CfgOpt)
    (hbase : CfgOpt.default A N wt wy = some base)
    (hres : parse_all_attrs A N wt wy kvs = some final) :
    final.application = (lastValue "app_name" kvs).getD base.application ∧
    final.org = (lastValue "org" kvs).getD base.org ∧
    final.qualifier = (lastValue "qualifier" kvs).getD base.qualifier ∧
    final.default_config_ident =
      (match lastValue "default" kvs with
       | some v => some v
       | none => base.default_config_ident) ∧
    final.filename = (lastValue "filename" kvs).getD base.filename ∧
    (match lastValue "format" kvs with
     | none => final.format = base.format
     | some v => Format.fromStr v = some final.format) := by
  unfold parse_all_attrs at hres
  rw [hbase] at hres
  exact foldl_overrides kvs base final hres

/-- Witness for C7: a run with several overrides, one of them repeated. -/
theorem c7_override_precedence_witness :
    exampleFinal.application = (lastValue "app_name" exampleKvs).getD exampleOpt.application ∧
    exampleFinal.org = (lastValue "org" exampleKvs).getD exampleOpt.org ∧
    exampleFinal.qualifier = (lastValue "qualifier" exampleKvs).getD exampleOpt.qualifier ∧
    exampleFinal.default_config_ident =
      (match lastValue "default" exampleKvs with
       | some v => some v
       | none => exampleOpt.default_config_ident) ∧
    exampleFinal.filename = (lastValue "filename" exampleKvs).getD exampleOpt.filename ∧
    (match lastValue "format" exampleKvs with
     | none => exampleFinal.format = exampleOpt.format
     | some v => Format.fromStr v = some exampleFinal.format) :=
  c7_override_precedence "A <b>" "app" true false exampleKvs exampleOpt exampleFinal rfl rfl

/-- Claim C8: descriptor resolution is a pure function of its inputs in
the model (the embedding itself carries no state), so resolving the same
overrides twice over the same environment-derived baseline yields equal
results, and any two successful resolutions agree field for field. -/
theorem c8_resolution_deterministic (A N : String) (wt wy : Bool) (kvs : List KV) :
    parse_all_attrs A N wt wy kvs = parse_all_attrs A N wt wy kvs ∧
    ∀ d1 d2, parse_all_attrs A N wt wy kvs = some d1 →
      parse_all_attrs A N wt wy kvs = some d2 →
      d1.org = d2.org ∧ d1.qualifier = d2.qualifier ∧
      d1.application = d2.application ∧ d1.filename = d2.filename ∧
      d1.format = d2.format ∧ d1.default_config_ident = d2.default_config_ident := by
  refine ⟨rfl, ?_⟩
  intro d1 d2 h1 h2
  rw [h1] at h2
  injection h2 with h3
  subst h3
  exact ⟨rfl, rfl, rfl, rfl, rfl, rfl⟩

/-- Witness for C8: two resolutions of the empty override set agree. -/
theorem c8_resolution_deterministic_witness :
    exampleOpt.org = exampleOpt.org ∧ exampleOpt.qualifier = exampleOpt.qualifier ∧
    exampleOpt.application = exampleOpt.application ∧
    exampleOpt.filename = exampleOpt.filename ∧
    exampleOpt.format = exampleOpt.format ∧
    exampleOpt.default_config_ident = exampleOpt.default_config_ident :=
  (c8_resolution_deterministic "A <b>" "app" true false []).2
    exampleOpt exampleOpt rfl rfl

/-- Claim C9: evaluating the resolver at the failing input.  The
generate-self-check key `generate_test`, documented in the crate docs of
`cfgen/src/lib.rs`, is not in `KV_PARSERS`, so `parse_field` panics
("Unknown option") on it and resolution of an override set containing it
aborts instead of accepting it. -/
theorem c9_generate_test_unknown_option :
    parse_field { key := "generate_test", value := "false" } exampleOpt = none ∧
    parse_all_attrs "Big Company <big@co.example>" "app" true false
      [{ key := "generate_test", value := "false" }] = none :=
  ⟨rfl, rfl⟩

theorem load_toml_agrees {T : Type} (b : Binding T) (hfmt : b.format = Format.Toml)
    (fs : FS) : load b fs = StructCfg.load b fs := by
  unfold load StructCfg.load
  rw [hfmt]
  rfl

theorem write_default_toml_agrees {T : Type} (b : Binding T)
    (hfmt : b.format = Format.Toml) (fs : FS) :
    write_default b fs = StructCfg.write_default b fs := by
  unfold write_default StructCfg.write_default
  cases hc : create_dir_all fs b.path.dropLast with
  | error e => simp [hc]
  | ok fs1 =>
      cases hw : write fs1 b.path b.payload with
      | error e => simp [hc, hw]
      | ok fs2 => simp [hc, hw, load_toml_agrees b hfmt]

/-- Claim C10: for the same descriptor (toml format), payload type and
filesystem state, the older revision of `load_or_write_default`
(`structcfg_derive`) succeeds with value `v` exactly when the newer
revision (`cfgen_derive`) succeeds with `(v, flag)` for one of the two
flag values, with the same resulting filesystem, and both fail with the
same error on the same filesystem otherwise: the revisions differ only
in the outcome tag. -/
theorem c10_revision_agreement {T : Type} (b : Binding T) (fs : FS)
    (hfmt : b.format = Format.Toml) :
    (∀ v fs', StructCfg.load_or_write_default b fs = (.ok v, fs') ↔
      (load_or_write_default b fs = (.ok (v, false), fs') ∨
       load_or_write_default b fs = (.ok (v, true), fs'))) ∧
    (∀ e fs', StructCfg.load_or_write_default b fs = (.error e, fs') ↔
      load_or_write_default b fs = (.error e, fs')) := by
  have hl := load_toml_agrees b hfmt fs
  have hwd := write_default_toml_agrees b hfmt fs
  unfold load_or_write_default StructCfg.load_or_write_default
  rw [hl, hwd]
  cases hsc : StructCfg.load b fs with
  | ok v0 =>
      constructor
      · intro v fs'
        simp [Prod.ext_iff]
      · intro e fs'
        simp
  | error err =>
      cases err with
      | IoRead e0 p =>
          obtain ⟨k⟩ := e0
          cases k with
          | NotFound =>
              cases hw : StructCfg.write_default b fs with
              | mk r fs2 =>
                  cases r with
                  | ok v0 =>
                      constructor
                      · intro v fs'
                        simp [Prod.ext_iff]
                      · intro e fs'
                        simp
                  | error e2 =>
                      constructor
                      · intro v fs'
                        simp
                      · intro e fs'
                        simp
          | PermissionDenied =>
              constructor
              · intro v fs'
                simp
              · intro e fs'
                simp
          | Other =>
              constructor
              · intro v fs'
                simp
              · intro e fs'
                simp
      | MakeDir e0 p =>
          exact ⟨fun v fs' => by simp, fun e fs' => by simp⟩
      | IoWrite e0 p =>
          exact ⟨fun v fs' => by simp, fun e fs' => by simp⟩
      | Toml e0 p =>
          exact ⟨fun v fs' => by simp, fun e fs' => by simp⟩
      | Yaml e0 p =>
          exact ⟨fun v fs' => by simp, fun e fs' => by simp⟩

/-- Witness for C10: on a filesystem holding a parsable file, the older
revision answers with a plain success exactly as the newer revision
answers with a flagged success. -/
theorem c10_revision_agreement_witness :
    StructCfg.load_or_write_default sampleBinding fsWithFile = (.ok 42, fsWithFile) ↔
      (load_or_write_default sampleBinding fsWithFile = (.ok (42, false), fsWithFile) ∨
       load_or_write_default sampleBinding fsWithFile = (.ok (42, true), fsWithFile)) :=
  (c10_revision_agreement sampleBinding fsWithFile rfl).1 42 fsWithFile

end Cfgen
